import Mathlib

/-!
# Configuration validation of the MongoDB Atlas receiver

A shallow embedding of `receiver/mongodbatlasreceiver/config.go`:
the configuration structures, the cluster lookup sets built by
`ProjectConfig.populateIncludesAndExcludes`, and the validators
`Config.Validate`, `LogConfig.validate`, `AlertConfig.validate`,
`AlertConfig.validatePollConfig`, `AlertConfig.validateListenConfig`
and `EventsConfig.validate`.

Modelling conventions.

* A Go `error` is a list of atomic errors: `nil` is `[]`, a plain error is a
  one-element list, and a `multierr` aggregate is the list of its parts.
  `multierr.Append` flattens aggregates and drops `nil`, so it is list
  concatenation.
* `int64` and `time.Duration` are `Int`; the validators only compare them with
  constants, so no arithmetic can overflow.
* `[]string` is `List String` (a nil slice and an empty slice both have
  length 0); `map[string]struct{}` is `Option (Finset String)`, `none` being
  the nil map.
* `*T` fields that the code tests against `nil` are `Option T`; the entries of
  `[]*ProjectConfig` are taken to be non-nil, as configuration decoding
  produces them.
-/

set_option autoImplicit false

namespace mongodbatlasreceiver

/-! ## Errors -/

/-- The error type `*net.AddrError` of the Go standard library. -/
structure AddrError where
  Err : String
  Addr : String
deriving DecidableEq, Repr

/-- The atomic errors of config.go: the package-level error variables, and the
error built by `fmt.Errorf("failed to split endpoint into 'host:port' pair: %w", err)`,
which wraps the error of `net.SplitHostPort`. -/
inductive ConfigError where
  | errNoEndpoint
  | errNoSecret
  | errNoCert
  | errNoKey
  | errNoModeRecognized
  | errPageSizeIncorrect
  | errNoProjects
  | errNoEvents
  | errClusterConfig
  | errSplitEndpoint (err : AddrError)
deriving DecidableEq, Repr

export ConfigError (errNoEndpoint errNoSecret errNoCert errNoKey errNoModeRecognized
  errPageSizeIncorrect errNoProjects errNoEvents errClusterConfig errSplitEndpoint)

/-- A Go `error` value: `[]` is `nil`. -/
abbrev error := List ConfigError

/-- `multierr.Append(left, right)`: `nil` operands are dropped and aggregates
are flattened. -/
def multierr.Append (left right : error) : error :=
  left ++ right

/-! ## Configuration structures -/

/-- The external type `configtls.TLSServerSetting`, cut down to the two fields
that config.go reads (both promoted from the embedded `TLSSetting`). -/
structure TLSServerSetting where
  CertFile : String
  KeyFile : String
deriving DecidableEq, Repr

structure ProjectConfig where
  Name : String
  ExcludeClusters : List String
  IncludeClusters : List String
  EnableAuditLogs : Bool
  includesByClusterName : Option (Finset String)
  excludesByClusterName : Option (Finset String)
deriving DecidableEq

structure OrgConfig where
  ID : String
deriving DecidableEq, Repr

structure AlertConfig where
  Enabled : Bool
  Endpoint : String
  Secret : String
  TLS : Option TLSServerSetting
  Mode : String
  Projects : List ProjectConfig
  PollInterval : Int
  PageSize : Int
  MaxPages : Int
deriving DecidableEq

structure LogConfig where
  Enabled : Bool
  Projects : List ProjectConfig
deriving DecidableEq

structure EventsConfig where
  Projects : List ProjectConfig
  Organizations : List OrgConfig
  PollInterval : Int
  Types : List String
  PageSize : Int
  MaxPages : Int
deriving DecidableEq

/-- The receiver configuration. The fields of external types that `Validate`
never reads (scraper settings, metrics builder, retry settings, storage id)
are left out. -/
structure Config where
  PublicKey : String
  PrivateKey : String
  Granularity : String
  Alerts : AlertConfig
  Events : Option EventsConfig
  Logs : LogConfig
deriving DecidableEq

/-- What config.go uses but does not declare: the two alert mode tags, which
are constants of another file of the package, and `net.SplitHostPort` of the
Go standard library. The validators take them as a parameter, so what is
proved holds whatever the tags and the parser are. -/
structure Externals where
  alertModeListen : String
  alertModePoll : String
  /-- The `switch` of `AlertConfig.validate` has both tags as cases, and Go
  rejects a switch with two equal constant cases. -/
  modes_distinct : alertModePoll ≠ alertModeListen
  SplitHostPort : String → Except AddrError (String × String)

/-! ## The externals of the running program

`net.SplitHostPort` is transcribed from the Go standard library
(`net/ipsock.go`). Strings are read as character lists; the delimiters `:`,
`[` and `]` are single bytes that occur in no multi-byte character, so cutting
at their positions is the same on bytes and on characters. -/

/-- `bytealg.IndexByteString(s, c)`, with `none` for `-1`. -/
def IndexByteString (s : List Char) (c : Char) : Option Nat :=
  if s.indexOf c < s.length then some (s.indexOf c) else none

/-- `bytealg.LastIndexByteString(s, c)`, with `none` for `-1`. -/
def LastIndexByteString (s : List Char) (c : Char) : Option Nat :=
  if s.reverse.indexOf c < s.length then some (s.length - 1 - s.reverse.indexOf c) else none

def net.SplitHostPort (hostport : String) : Except AddrError (String × String) :=
  let missingPort := "missing port in address"
  let tooManyColons := "too many colons in address"
  let addrErr (addr why : String) : Except AddrError (String × String) :=
    .error { Err := why, Addr := addr }
  let hp := hostport.data
  -- the checks shared by both branches, after `host`, `j` and `k` are set
  let rest (i : Nat) (host : List Char) (j k : Nat) : Except AddrError (String × String) :=
    if (IndexByteString (hp.drop j) '[').isSome then
      addrErr hostport "unexpected '[' in address"
    else if (IndexByteString (hp.drop k) ']').isSome then
      addrErr hostport "unexpected ']' in address"
    else
      .ok (String.mk host, String.mk (hp.drop (i + 1)))
  -- The port starts after the last colon.
  match LastIndexByteString hp ':' with
  | none => addrErr hostport missingPort
  | some i =>
    if hp.head? = some '[' then
      -- Expect the first ']' just before the last ':'.
      match IndexByteString hp ']' with
      | none => addrErr hostport "missing ']' in address"
      | some end_ =>
        if end_ + 1 = hp.length then
          -- There can't be a ':' behind the ']' now.
          addrErr hostport missingPort
        else if end_ + 1 = i then
          rest i ((hp.take end_).drop 1) 1 (end_ + 1)
        else if hp.get? (end_ + 1) = some ':' then
          addrErr hostport tooManyColons
        else
          addrErr hostport missingPort
    else
      let host := hp.take i
      if (IndexByteString host ':').isSome then
        addrErr hostport tooManyColons
      else
        rest i host 0 0

/-- The externals of the receiver as it is built: the mode tags are the
strings `listen` and `poll`, and the parser is the standard library's
`net.SplitHostPort`. The examples are evaluated with them. -/
def goExternals : Externals where
  alertModeListen := "listen"
  alertModePoll := "poll"
  modes_distinct := by decide
  SplitHostPort := net.SplitHostPort

/-! ## Cluster lookup sets -/

def ProjectConfig.populateIncludesAndExcludes (pc : ProjectConfig) : ProjectConfig :=
  let includes := pc.IncludeClusters.foldl (fun m inclusion => insert inclusion m) (∅ : Finset String)
  let excludes := pc.ExcludeClusters.foldl (fun m exclusion => insert exclusion m) (∅ : Finset String)
  { pc with includesByClusterName := some includes, excludesByClusterName := some excludes }

/-! ## Validators -/

def LogConfig.validate (l : LogConfig) : error :=
  if !l.Enabled then
    []
  else
    let errs : error := []
    let errs := if l.Projects.length = 0 then multierr.Append errs [errNoProjects] else errs
    l.Projects.foldl
      (fun errs project =>
        if project.ExcludeClusters.length ≠ 0 ∧ project.IncludeClusters.length ≠ 0 then
          multierr.Append errs [errClusterConfig]
        else errs)
      errs

def AlertConfig.validatePollConfig (a : AlertConfig) : error :=
  if a.Projects.length = 0 then
    [errNoProjects]
  else if 0 ≥ a.PageSize ∨ a.PageSize > 500 then
    [errPageSizeIncorrect]
  else
    a.Projects.foldl
      (fun errs project =>
        if project.ExcludeClusters.length ≠ 0 ∧ project.IncludeClusters.length ≠ 0 then
          multierr.Append errs [errClusterConfig]
        else errs)
      []

def AlertConfig.validateListenConfig (X : Externals) (a : AlertConfig) : error :=
  if a.Endpoint = "" then
    [errNoEndpoint]
  else
    let errs : error := []
    let errs :=
      match X.SplitHostPort a.Endpoint with
      | .error err => multierr.Append errs [errSplitEndpoint err]
      | .ok _ => errs
    let errs := if a.Secret = "" then multierr.Append errs [errNoSecret] else errs
    match a.TLS with
    | some tls =>
      let errs := if tls.CertFile = "" then multierr.Append errs [errNoCert] else errs
      let errs := if tls.KeyFile = "" then multierr.Append errs [errNoKey] else errs
      errs
    | none => errs

def AlertConfig.validate (X : Externals) (a : AlertConfig) : error :=
  if !a.Enabled then
    []
  else if a.Mode = X.alertModePoll then
    a.validatePollConfig
  else if a.Mode = X.alertModeListen then
    a.validateListenConfig X
  else
    [errNoModeRecognized]

def EventsConfig.validate (e : EventsConfig) : error :=
  if e.Projects.length = 0 ∧ e.Organizations.length = 0 then
    [errNoEvents]
  else
    []

def Config.Validate (X : Externals) (c : Config) : error :=
  let errs : error := []
  let errs := multierr.Append errs (c.Alerts.validate X)
  let errs := multierr.Append errs c.Logs.validate
  let errs :=
    match c.Events with
    | some events => multierr.Append errs events.validate
    | none => errs
  errs

/-! ## Sample configurations -/

/-- A project that names clusters in both lists. -/
def projectBothLists : ProjectConfig where
  Name := "proj1"
  ExcludeClusters := ["clusterB"]
  IncludeClusters := ["clusterA"]
  EnableAuditLogs := false
  includesByClusterName := none
  excludesByClusterName := none

/-- A project that only includes clusters. -/
def projectIncludeOnly : ProjectConfig where
  Name := "proj1"
  ExcludeClusters := []
  IncludeClusters := ["clusterA", "clusterB", "clusterA"]
  EnableAuditLogs := true
  includesByClusterName := none
  excludesByClusterName := none

/-- An enabled Poll-mode alerts configuration with the given projects and page size. -/
def pollAlerts (projects : List ProjectConfig) (pageSize : Int) : AlertConfig where
  Enabled := true
  Endpoint := ""
  Secret := ""
  TLS := none
  Mode := "poll"
  Projects := projects
  PollInterval := 0
  PageSize := pageSize
  MaxPages := 0

/-- An enabled Listen-mode alerts configuration with the given endpoint, secret and TLS block. -/
def listenAlerts (endpoint secret : String) (tls : Option TLSServerSetting) : AlertConfig where
  Enabled := true
  Endpoint := endpoint
  Secret := secret
  TLS := tls
  Mode := "listen"
  Projects := []
  PollInterval := 0
  PageSize := 0
  MaxPages := 0

/-- A disabled alerts configuration whose other fields are all invalid. -/
def disabledAlerts : AlertConfig where
  Enabled := false
  Endpoint := ""
  Secret := ""
  TLS := some { CertFile := "", KeyFile := "" }
  Mode := "unknown"
  Projects := [projectBothLists]
  PollInterval := 0
  PageSize := -1
  MaxPages := -1

/-- A receiver configuration made of the three surfaces. -/
def configOf (alerts : AlertConfig) (logs : LogConfig) (events : Option EventsConfig) : Config where
  PublicKey := "public"
  PrivateKey := "private"
  Granularity := "PT1M"
  Alerts := alerts
  Events := events
  Logs := logs

/-- An events block with the given projects and organizations. -/
def eventsOf (projects : List ProjectConfig) (orgs : List OrgConfig) : EventsConfig where
  Projects := projects
  Organizations := orgs
  PollInterval := 60000000000
  Types := []
  PageSize := 100
  MaxPages := 25

/-! ## Shared lemmas -/

/-- The loop over the projects appends one `errClusterConfig` for each project
that has both lists non-empty, and nothing else. -/
theorem foldl_clusterConfig (ps : List ProjectConfig) (init : error) :
    ps.foldl
        (fun errs project =>
          if project.ExcludeClusters.length ≠ 0 ∧ project.IncludeClusters.length ≠ 0 then
            multierr.Append errs [errClusterConfig]
          else errs)
        init
      = init ++ List.replicate
          (ps.countP (fun p => decide (p.IncludeClusters ≠ [] ∧ p.ExcludeClusters ≠ [])))
          errClusterConfig := by
  induction ps generalizing init with
  | nil => simp
  | cons p ps ih =>
    rw [List.foldl_cons, ih, List.countP_cons]
    by_cases hI : p.IncludeClusters = [] <;> by_cases hE : p.ExcludeClusters = [] <;>
      simp [hI, hE, multierr.Append, List.replicate_succ]

/-- The result of `validatePollConfig` in closed form. -/
theorem validatePollConfig_eq (a : AlertConfig) :
    a.validatePollConfig =
      if a.Projects = [] then [errNoProjects]
      else if a.PageSize ≤ 0 ∨ 500 < a.PageSize then [errPageSizeIncorrect]
      else List.replicate
        (a.Projects.countP (fun p => decide (p.IncludeClusters ≠ [] ∧ p.ExcludeClusters ≠ [])))
        errClusterConfig := by
  unfold AlertConfig.validatePollConfig
  rw [foldl_clusterConfig]
  simp [List.length_eq_zero]

/-- The result of `LogConfig.validate` on an enabled logs block, in closed form. -/
theorem LogConfig.validate_eq (l : LogConfig) (h : l.Enabled = true) :
    l.validate =
      (if l.Projects = [] then [errNoProjects] else []) ++ List.replicate
        (l.Projects.countP (fun p => decide (p.IncludeClusters ≠ [] ∧ p.ExcludeClusters ≠ [])))
        errClusterConfig := by
  unfold LogConfig.validate
  rw [foldl_clusterConfig]
  by_cases hp : l.Projects = [] <;> simp [h, hp, multierr.Append]

/-- An `errClusterConfig` is among that many copies of it exactly when some
project has both lists non-empty. -/
theorem mem_replicate_clusterConfig (ps : List ProjectConfig) :
    errClusterConfig ∈ List.replicate
        (ps.countP (fun p => decide (p.IncludeClusters ≠ [] ∧ p.ExcludeClusters ≠ [])))
        errClusterConfig
      ↔ ∃ p ∈ ps, p.IncludeClusters ≠ [] ∧ p.ExcludeClusters ≠ [] := by
  rw [List.mem_replicate]
  constructor
  · rintro ⟨h, -⟩
    obtain ⟨p, hp, hb⟩ := List.countP_pos_iff.mp (Nat.pos_of_ne_zero h)
    exact ⟨p, hp, by simpa using hb⟩
  · rintro ⟨p, hp, hb⟩
    exact ⟨Nat.pos_iff_ne_zero.mp (List.countP_pos_iff.mpr ⟨p, hp, by simpa using hb⟩), rfl⟩

/-- An enabled Poll-mode configuration is validated by `validatePollConfig`. -/
theorem validate_poll (X : Externals) (a : AlertConfig)
    (hE : a.Enabled = true) (hM : a.Mode = X.alertModePoll) :
    a.validate X = a.validatePollConfig := by
  simp [AlertConfig.validate, hE, hM]

/-- An enabled Listen-mode configuration is validated by `validateListenConfig`. -/
theorem validate_listen (X : Externals) (a : AlertConfig)
    (hE : a.Enabled = true) (hM : a.Mode = X.alertModeListen) :
    a.validate X = a.validateListenConfig X := by
  have hne : ¬ X.alertModeListen = X.alertModePoll := fun h => X.modes_distinct h.symm
  simp [AlertConfig.validate, hE, hM, hne]

/-- The result of `validateListenConfig` for a non-empty endpoint, as the
concatenation of what each of the four checks contributes. -/
theorem validateListenConfig_eq (X : Externals) (a : AlertConfig) (hEnd : a.Endpoint ≠ "") :
    a.validateListenConfig X =
      (match X.SplitHostPort a.Endpoint with
        | .error err => [errSplitEndpoint err]
        | .ok _ => [])
      ++ (if a.Secret = "" then [errNoSecret] else [])
      ++ (match a.TLS with
        | some tls =>
          (if tls.CertFile = "" then [errNoCert] else [])
            ++ (if tls.KeyFile = "" then [errNoKey] else [])
        | none => []) := by
  unfold AlertConfig.validateListenConfig
  rw [if_neg hEnd]
  cases X.SplitHostPort a.Endpoint <;> cases a.TLS <;>
    by_cases hS : a.Secret = "" <;> simp only [hS, multierr.Append] <;>
    split_ifs <;> simp

/-- The loop that fills a lookup set leaves in it what it held before, and the
names of the list. -/
theorem foldl_insert_eq (names : List String) (init : Finset String) :
    names.foldl (fun m name => insert name m) init = init ∪ names.toFinset := by
  induction names generalizing init with
  | nil => simp
  | cons name names ih =>
    rw [List.foldl_cons, ih]
    ext c
    simp only [Finset.mem_union, Finset.mem_insert, List.toFinset_cons]
    tauto

/-- The two lookup sets that `populateIncludesAndExcludes` builds. -/
theorem populateIncludesAndExcludes_sets (pc : ProjectConfig) :
    pc.populateIncludesAndExcludes.includesByClusterName = some pc.IncludeClusters.toFinset
    ∧ pc.populateIncludesAndExcludes.excludesByClusterName = some pc.ExcludeClusters.toFinset := by
  simp [ProjectConfig.populateIncludesAndExcludes, foldl_insert_eq]

/-- `Config.Validate` returns the errors of the alerts surface, then those of
the logs surface, then those of the events block when there is one. -/
theorem Validate_eq (X : Externals) (c : Config) :
    c.Validate X =
      c.Alerts.validate X ++ c.Logs.validate
        ++ (match c.Events with
          | some events => events.validate
          | none => []) := by
  unfold Config.Validate
  cases c.Events <;> simp [multierr.Append]

/-! ## Poll-mode validation reports the first violated rule -/

/-- C1, as stated, fails: the Poll rules are checked in order and the first
violated one is returned alone. With page size 0 and a project that has both
lists, only `errPageSizeIncorrect` is returned and `errClusterConfig` is left
out; with no project and page size 0, only `errNoProjects` is returned and
`errPageSizeIncorrect` is left out. -/
theorem poll_rules_short_circuit :
    ((pollAlerts [projectBothLists] 0).Enabled = true
      ∧ (pollAlerts [projectBothLists] 0).Mode = goExternals.alertModePoll
      ∧ (∃ p ∈ (pollAlerts [projectBothLists] 0).Projects,
          p.IncludeClusters ≠ [] ∧ p.ExcludeClusters ≠ [])
      ∧ (pollAlerts [projectBothLists] 0).validate goExternals = [errPageSizeIncorrect]
      ∧ errClusterConfig ∉ (pollAlerts [projectBothLists] 0).validate goExternals)
    ∧ ((pollAlerts [] 0).Enabled = true
      ∧ (pollAlerts [] 0).Mode = goExternals.alertModePoll
      ∧ ¬ (1 ≤ (pollAlerts [] 0).PageSize ∧ (pollAlerts [] 0).PageSize ≤ 500)
      ∧ (pollAlerts [] 0).validate goExternals = [errNoProjects]
      ∧ errPageSizeIncorrect ∉ (pollAlerts [] 0).validate goExternals) := by
  decide

/-- C1, amended: for an enabled Poll-mode alerts configuration `validate`
checks the Poll rules in order and returns at the first violated one. The
returned error contains `errNoProjects` whenever the project list is empty, and
is then `errNoProjects` alone, whatever the page size is. It contains
`errPageSizeIncorrect` whenever the project list is non-empty and the page size
is outside 1..500, and is then `errPageSizeIncorrect` alone, whatever the
cluster lists of the projects are. It contains `errClusterConfig` whenever the
page size is within 1..500 and some project has both lists non-empty, and then
holds no error of the two earlier rules. -/
theorem poll_reports_first_violated_rule (X : Externals) (a : AlertConfig)
    (hE : a.Enabled = true) (hM : a.Mode = X.alertModePoll) :
    (a.Projects = [] →
        errNoProjects ∈ a.validate X ∧ a.validate X = [errNoProjects])
    ∧ (a.Projects ≠ [] → ¬ (1 ≤ a.PageSize ∧ a.PageSize ≤ 500) →
        errPageSizeIncorrect ∈ a.validate X ∧ a.validate X = [errPageSizeIncorrect])
    ∧ (1 ≤ a.PageSize → a.PageSize ≤ 500 →
        (∃ p ∈ a.Projects, p.IncludeClusters ≠ [] ∧ p.ExcludeClusters ≠ []) →
        errClusterConfig ∈ a.validate X
        ∧ ∀ e ∈ a.validate X, e = errClusterConfig) := by
  rw [validate_poll X a hE hM, validatePollConfig_eq]
  refine ⟨?_, ?_, ?_⟩
  · intro hp
    simp [hp]
  · intro hp hsize
    have hbad : a.PageSize ≤ 0 ∨ 500 < a.PageSize := by omega
    simp [hp, hbad]
  · rintro h1 h500 ⟨p, hp, hb⟩
    have hne : a.Projects ≠ [] := List.ne_nil_of_mem hp
    have hgood : ¬ (a.PageSize ≤ 0 ∨ 500 < a.PageSize) := by omega
    rw [if_neg hne, if_neg hgood]
    exact ⟨(mem_replicate_clusterConfig a.Projects).mpr ⟨p, hp, hb⟩,
      fun e he => (List.mem_replicate.mp he).2⟩

/-- The amended C1 at three configurations: two projects, one of them with both
lists, and page size 100; a project with both lists and page size 0, where the
page size error is the whole result; no project and page size 0, where
`errNoProjects` is the whole result. -/
theorem poll_reports_first_violated_rule_witness :
    errClusterConfig ∈
        (pollAlerts [projectIncludeOnly, projectBothLists] 100).validate goExternals
    ∧ (pollAlerts [projectBothLists] 0).validate goExternals = [errPageSizeIncorrect]
    ∧ (pollAlerts [] 0).validate goExternals = [errNoProjects] :=
  ⟨((poll_reports_first_violated_rule goExternals
      (pollAlerts [projectIncludeOnly, projectBothLists] 100) rfl rfl).2.2
      (by decide) (by decide) ⟨projectBothLists, by decide, by decide, by decide⟩).1,
    ((poll_reports_first_violated_rule goExternals (pollAlerts [projectBothLists] 0)
      rfl rfl).2.1 (by decide) (by decide)).2,
    ((poll_reports_first_violated_rule goExternals (pollAlerts [] 0) rfl rfl).1 rfl).2⟩

/-! ## The secret of a Listen-mode configuration -/

/-- C2, as stated, fails: with an empty endpoint the Listen validation returns
`errNoEndpoint` alone, so an empty secret is not reported. -/
theorem listen_empty_endpoint_hides_secret :
    (listenAlerts "" "" none).Enabled = true
    ∧ (listenAlerts "" "" none).Mode = goExternals.alertModeListen
    ∧ (listenAlerts "" "" none).Secret = ""
    ∧ (listenAlerts "" "" none).validate goExternals = [errNoEndpoint]
    ∧ errNoSecret ∉ (listenAlerts "" "" none).validate goExternals := by
  decide

/-- C2, amended: for an enabled Listen-mode alerts configuration with a
non-empty endpoint and an empty secret, the returned error contains
`errNoSecret`, whatever the other fields are (the endpoint may fail to parse,
and the TLS block may be absent or incomplete). -/
theorem listen_empty_secret_reported (X : Externals) (a : AlertConfig)
    (hE : a.Enabled = true) (hM : a.Mode = X.alertModeListen)
    (hEnd : a.Endpoint ≠ "") (hS : a.Secret = "") :
    errNoSecret ∈ a.validate X := by
  rw [validate_listen X a hE hM, validateListenConfig_eq X a hEnd]
  simp [hS]

/-- The amended C2 at a configuration whose endpoint has no port and whose TLS
block is empty. -/
theorem listen_empty_secret_reported_witness :
    errNoSecret ∈
      (listenAlerts "localhost" ""
        (some { CertFile := "", KeyFile := "" })).validate
        goExternals :=
  listen_empty_secret_reported goExternals
    (listenAlerts "localhost" ""
      (some { CertFile := "", KeyFile := "" }))
    rfl rfl (by decide) rfl


/-! ## Projects with both cluster lists -/

/-- C3, as stated, fails on two of the three surfaces: a project with both lists
in a present events block is not reported at all (`Validate` returns no
error), and one in the project list of enabled Poll-mode alerts is not reported
when the page size is out of range. -/
theorem cluster_conflict_unreported :
    ((∃ events, (configOf disabledAlerts { Enabled := false, Projects := [] }
          (some (eventsOf [projectBothLists] []))).Events = some events
        ∧ ∃ p ∈ events.Projects, p.IncludeClusters ≠ [] ∧ p.ExcludeClusters ≠ [])
      ∧ (configOf disabledAlerts { Enabled := false, Projects := [] }
          (some (eventsOf [projectBothLists] []))).Validate goExternals = [])
    ∧ ((configOf (pollAlerts [projectBothLists] 0) { Enabled := false, Projects := [] }
          none).Alerts.Enabled = true
      ∧ (configOf (pollAlerts [projectBothLists] 0) { Enabled := false, Projects := [] }
          none).Alerts.Mode = goExternals.alertModePoll
      ∧ (∃ p ∈ (configOf (pollAlerts [projectBothLists] 0) { Enabled := false, Projects := [] }
            none).Alerts.Projects, p.IncludeClusters ≠ [] ∧ p.ExcludeClusters ≠ [])
      ∧ errClusterConfig ∉ (configOf (pollAlerts [projectBothLists] 0)
          { Enabled := false, Projects := [] } none).Validate goExternals) := by
  refine ⟨⟨⟨eventsOf [projectBothLists] [], rfl, projectBothLists, ?_, ?_, ?_⟩, ?_⟩,
    ?_, ?_, ⟨projectBothLists, ?_, ?_, ?_⟩, ?_⟩ <;> decide

/-- C3, amended: `Config.Validate` returns an error that contains
`errClusterConfig` whenever some project with both lists non-empty is in the
project list of the enabled logs surface, or in the project list of enabled
Poll-mode alerts whose page size is within 1..500. -/
theorem Validate_reports_cluster_conflict (X : Externals) (c : Config)
    (h : (c.Logs.Enabled = true
          ∧ ∃ p ∈ c.Logs.Projects, p.IncludeClusters ≠ [] ∧ p.ExcludeClusters ≠ [])
        ∨ (c.Alerts.Enabled = true ∧ c.Alerts.Mode = X.alertModePoll
          ∧ 1 ≤ c.Alerts.PageSize ∧ c.Alerts.PageSize ≤ 500
          ∧ ∃ p ∈ c.Alerts.Projects, p.IncludeClusters ≠ [] ∧ p.ExcludeClusters ≠ [])) :
    errClusterConfig ∈ c.Validate X := by
  rw [Validate_eq]
  rcases h with ⟨hL, hp⟩ | ⟨hE, hM, h1, h500, p, hp, hb⟩
  · have hmem : errClusterConfig ∈ c.Logs.validate := by
      rw [LogConfig.validate_eq c.Logs hL]
      exact List.mem_append_right _ ((mem_replicate_clusterConfig c.Logs.Projects).mpr hp)
    simp [hmem]
  · have hmem : errClusterConfig ∈ c.Alerts.validate X := by
      rw [validate_poll X c.Alerts hE hM, validatePollConfig_eq]
      have hne : c.Alerts.Projects ≠ [] := List.ne_nil_of_mem hp
      have hgood : ¬ (c.Alerts.PageSize ≤ 0 ∨ 500 < c.Alerts.PageSize) := by omega
      rw [if_neg hne, if_neg hgood]
      exact (mem_replicate_clusterConfig c.Alerts.Projects).mpr ⟨p, hp, hb⟩
    simp [hmem]

/-- The amended C3 at a configuration whose logs surface is enabled and lists a
project with both lists, next to alerts that are themselves invalid. -/
theorem Validate_reports_cluster_conflict_witness :
    errClusterConfig ∈
      (configOf (pollAlerts [] 0) { Enabled := true, Projects := [projectBothLists] }
        none).Validate goExternals :=
  Validate_reports_cluster_conflict goExternals
    (configOf (pollAlerts [] 0) { Enabled := true, Projects := [projectBothLists] } none)
    (Or.inl ⟨rfl, projectBothLists, by decide, by decide, by decide⟩)

/-- C4, as stated, fails: for a project with both lists non-empty
`populateIncludesAndExcludes` returns normally, with both lookup sets built. -/
theorem populate_builds_both_sets :
    projectBothLists.IncludeClusters ≠ []
    ∧ projectBothLists.ExcludeClusters ≠ []
    ∧ projectBothLists.populateIncludesAndExcludes =
        { projectBothLists with
          includesByClusterName := some {"clusterA"}
          excludesByClusterName := some {"clusterB"} } := by
  decide

/-- C4, amended: `populateIncludesAndExcludes` never fails. For a project whose
lists are both non-empty it returns both lookup sets, each non-nil, non-empty
and holding every name of its list; the configuration error for such a project
comes from validation instead: the enabled logs surface that lists the project
reports `errClusterConfig`. -/
theorem populate_total_conflict_left_to_validation (pc : ProjectConfig)
    (hI : pc.IncludeClusters ≠ []) (hE : pc.ExcludeClusters ≠ []) :
    (∃ includes excludes,
      pc.populateIncludesAndExcludes.includesByClusterName = some includes
      ∧ pc.populateIncludesAndExcludes.excludesByClusterName = some excludes
      ∧ includes.Nonempty ∧ excludes.Nonempty
      ∧ (∀ c ∈ pc.IncludeClusters, c ∈ includes)
      ∧ (∀ c ∈ pc.ExcludeClusters, c ∈ excludes))
    ∧ errClusterConfig ∈ LogConfig.validate { Enabled := true, Projects := [pc] } := by
  obtain ⟨hinc, hexc⟩ := populateIncludesAndExcludes_sets pc
  refine ⟨⟨_, _, hinc, hexc, ?_, ?_, ?_, ?_⟩, ?_⟩
  · obtain ⟨c, hc⟩ := List.exists_mem_of_ne_nil _ hI
    exact ⟨c, List.mem_toFinset.mpr hc⟩
  · obtain ⟨c, hc⟩ := List.exists_mem_of_ne_nil _ hE
    exact ⟨c, List.mem_toFinset.mpr hc⟩
  · intro c hc
    exact List.mem_toFinset.mpr hc
  · intro c hc
    exact List.mem_toFinset.mpr hc
  · rw [LogConfig.validate_eq _ rfl]
    exact List.mem_append_right _
      ((mem_replicate_clusterConfig [pc]).mpr ⟨pc, List.mem_singleton.mpr rfl, hI, hE⟩)

/-- The amended C4 at the sample project with both lists. -/
theorem populate_total_conflict_left_to_validation_witness :
    (∃ includes excludes,
      projectBothLists.populateIncludesAndExcludes.includesByClusterName = some includes
      ∧ projectBothLists.populateIncludesAndExcludes.excludesByClusterName = some excludes
      ∧ includes.Nonempty ∧ excludes.Nonempty
      ∧ (∀ c ∈ projectBothLists.IncludeClusters, c ∈ includes)
      ∧ (∀ c ∈ projectBothLists.ExcludeClusters, c ∈ excludes))
    ∧ errClusterConfig ∈
        LogConfig.validate { Enabled := true, Projects := [projectBothLists] } :=
  populate_total_conflict_left_to_validation projectBothLists (by decide) (by decide)

/-! ## The page size bound -/

/-- C5: for an enabled Poll-mode alerts configuration with at least one project
and no project with both lists non-empty, `validate` returns no error if and
only if `1 ≤ PageSize ≤ 500`, and an error it returns is `errPageSizeIncorrect`. -/
theorem poll_page_size_bound (X : Externals) (a : AlertConfig)
    (hE : a.Enabled = true) (hM : a.Mode = X.alertModePoll)
    (hP : a.Projects ≠ [])
    (hC : ∀ p ∈ a.Projects, ¬ (p.IncludeClusters ≠ [] ∧ p.ExcludeClusters ≠ [])) :
    (a.validate X = [] ↔ 1 ≤ a.PageSize ∧ a.PageSize ≤ 500)
    ∧ (a.validate X ≠ [] → a.validate X = [errPageSizeIncorrect]) := by
  have hcount : a.Projects.countP
      (fun p => decide (p.IncludeClusters ≠ [] ∧ p.ExcludeClusters ≠ [])) = 0 := by
    rw [List.countP_eq_zero]
    intro p hp
    simpa using hC p hp
  rw [validate_poll X a hE hM, validatePollConfig_eq, if_neg hP, hcount]
  by_cases hbad : a.PageSize ≤ 0 ∨ 500 < a.PageSize
  · rw [if_pos hbad]
    refine ⟨⟨fun h => by simp at h, fun h => by omega⟩, fun _ => rfl⟩
  · rw [if_neg hbad]
    refine ⟨⟨fun _ => by omega, fun _ => rfl⟩, fun h => by simp at h⟩

/-- C5 at the page sizes 1 and 500, which pass, and at 0, 501 and -7, which
fail with `errPageSizeIncorrect`. -/
theorem poll_page_size_bound_witness :
    (pollAlerts [projectIncludeOnly] 1).validate goExternals = []
    ∧ (pollAlerts [projectIncludeOnly] 500).validate goExternals = []
    ∧ (pollAlerts [projectIncludeOnly] 0).validate goExternals = [errPageSizeIncorrect]
    ∧ (pollAlerts [projectIncludeOnly] 501).validate goExternals = [errPageSizeIncorrect]
    ∧ (pollAlerts [projectIncludeOnly] (-7)).validate goExternals = [errPageSizeIncorrect] :=
  have hP : ∀ n, (pollAlerts [projectIncludeOnly] n).Projects ≠ [] := fun _ => by
    simp [pollAlerts]
  have hC : ∀ n, ∀ p ∈ (pollAlerts [projectIncludeOnly] n).Projects,
      ¬ (p.IncludeClusters ≠ [] ∧ p.ExcludeClusters ≠ []) := fun _ p hp => by
    simp only [pollAlerts, List.mem_singleton] at hp
    subst hp
    simp [projectIncludeOnly]
  have fails : ∀ n : Int, ¬ (1 ≤ n ∧ n ≤ 500) →
      (pollAlerts [projectIncludeOnly] n).validate goExternals = [errPageSizeIncorrect] :=
    fun n hn =>
      (poll_page_size_bound goExternals (pollAlerts [projectIncludeOnly] n) rfl rfl
        (hP n) (hC n)).2
        (fun h => hn ((poll_page_size_bound goExternals (pollAlerts [projectIncludeOnly] n)
          rfl rfl (hP n) (hC n)).1.mp h))
  ⟨(poll_page_size_bound goExternals (pollAlerts [projectIncludeOnly] 1) rfl rfl
      (hP 1) (hC 1)).1.mpr (by decide),
    (poll_page_size_bound goExternals (pollAlerts [projectIncludeOnly] 500) rfl rfl
      (hP 500) (hC 500)).1.mpr (by decide),
    fails 0 (by decide), fails 501 (by decide), fails (-7) (by decide)⟩

/-! ## The lookup sets -/

/-- C6: after `populateIncludesAndExcludes` both lookup sets are non-nil; a
cluster name is a key of `includesByClusterName` exactly when it occurs in
`IncludeClusters`, and a key of `excludesByClusterName` exactly when it occurs
in `ExcludeClusters`; a set is empty exactly when its list is empty; and two
projects whose lists hold the same names, in whatever order and however often,
get the same sets. -/
theorem populate_sets_are_the_lists (pc : ProjectConfig) :
    ∃ includes excludes,
      pc.populateIncludesAndExcludes.includesByClusterName = some includes
      ∧ pc.populateIncludesAndExcludes.excludesByClusterName = some excludes
      ∧ (∀ c, c ∈ includes ↔ c ∈ pc.IncludeClusters)
      ∧ (∀ c, c ∈ excludes ↔ c ∈ pc.ExcludeClusters)
      ∧ (includes = ∅ ↔ pc.IncludeClusters = [])
      ∧ (excludes = ∅ ↔ pc.ExcludeClusters = [])
      ∧ (∀ other : ProjectConfig,
          (∀ c, c ∈ other.IncludeClusters ↔ c ∈ pc.IncludeClusters) →
          other.populateIncludesAndExcludes.includesByClusterName = some includes)
      ∧ (∀ other : ProjectConfig,
          (∀ c, c ∈ other.ExcludeClusters ↔ c ∈ pc.ExcludeClusters) →
          other.populateIncludesAndExcludes.excludesByClusterName = some excludes) := by
  obtain ⟨hinc, hexc⟩ := populateIncludesAndExcludes_sets pc
  refine ⟨_, _, hinc, hexc, fun c => List.mem_toFinset, fun c => List.mem_toFinset,
    List.toFinset_eq_empty_iff _, List.toFinset_eq_empty_iff _, ?_, ?_⟩
  · intro other h
    rw [(populateIncludesAndExcludes_sets other).1]
    congr 1
    ext c
    simp [h c]
  · intro other h
    rw [(populateIncludesAndExcludes_sets other).2]
    congr 1
    ext c
    simp [h c]

/-! ## Disabled surfaces and the mode tag -/

/-- C7: a disabled alerts configuration and a disabled logs configuration are
valid, whatever their other fields are. -/
theorem disabled_surface_is_valid (X : Externals) (a : AlertConfig) (l : LogConfig)
    (ha : a.Enabled = false) (hl : l.Enabled = false) :
    a.validate X = [] ∧ l.validate = [] := by
  simp [AlertConfig.validate, LogConfig.validate, ha, hl]

/-- C7 at a disabled alerts configuration with an unknown mode, an empty TLS
block, a negative page size and a project with both lists, and at a disabled
logs configuration with such a project. -/
theorem disabled_surface_is_valid_witness :
    disabledAlerts.validate goExternals = []
    ∧ LogConfig.validate { Enabled := false, Projects := [projectBothLists] } = [] :=
  disabled_surface_is_valid goExternals disabledAlerts
    { Enabled := false, Projects := [projectBothLists] } rfl rfl

/-- Poll-mode validation never reports `errNoModeRecognized`. -/
theorem errNoModeRecognized_not_mem_poll (a : AlertConfig) :
    errNoModeRecognized ∉ a.validatePollConfig := by
  rw [validatePollConfig_eq]
  split_ifs <;> simp [List.mem_replicate]

/-- Listen-mode validation never reports `errNoModeRecognized`. -/
theorem errNoModeRecognized_not_mem_listen (X : Externals) (a : AlertConfig) :
    errNoModeRecognized ∉ a.validateListenConfig X := by
  by_cases hEnd : a.Endpoint = ""
  · simp [AlertConfig.validateListenConfig, hEnd]
  · rw [validateListenConfig_eq X a hEnd]
    cases X.SplitHostPort a.Endpoint <;> cases a.TLS <;> simp

/-- C8: an enabled alerts configuration gets `errNoModeRecognized` if and only
if its mode is neither the Poll tag nor the Listen tag, and then
`errNoModeRecognized` is the whole result, whatever the other fields are. -/
theorem mode_not_recognized_iff (X : Externals) (a : AlertConfig) (hE : a.Enabled = true) :
    (errNoModeRecognized ∈ a.validate X ↔
      a.Mode ≠ X.alertModePoll ∧ a.Mode ≠ X.alertModeListen)
    ∧ (a.validate X = [errNoModeRecognized] ↔
      a.Mode ≠ X.alertModePoll ∧ a.Mode ≠ X.alertModeListen) := by
  by_cases hP : a.Mode = X.alertModePoll
  · have hnot := errNoModeRecognized_not_mem_poll a
    rw [validate_poll X a hE hP]
    refine ⟨⟨fun h => absurd h hnot, fun h => absurd hP h.1⟩,
      ⟨fun h => absurd (h ▸ List.mem_singleton.mpr rfl) hnot, fun h => absurd hP h.1⟩⟩
  · by_cases hL : a.Mode = X.alertModeListen
    · have hnot := errNoModeRecognized_not_mem_listen X a
      rw [validate_listen X a hE hL]
      refine ⟨⟨fun h => absurd h hnot, fun h => absurd hL h.2⟩,
        ⟨fun h => absurd (h ▸ List.mem_singleton.mpr rfl) hnot, fun h => absurd hL h.2⟩⟩
    · have hv : a.validate X = [errNoModeRecognized] := by
        simp [AlertConfig.validate, hE, hP, hL]
      rw [hv]
      simp [hP, hL]

/-- C8 at the empty mode string and at a misspelt tag, with every other field
invalid. -/
theorem mode_not_recognized_iff_witness :
    AlertConfig.validate goExternals { disabledAlerts with Enabled := true, Mode := "" }
        = [errNoModeRecognized]
    ∧ AlertConfig.validate goExternals { disabledAlerts with Enabled := true, Mode := "Poll" }
        = [errNoModeRecognized] :=
  ⟨(mode_not_recognized_iff goExternals { disabledAlerts with Enabled := true, Mode := "" }
      rfl).2.mpr ⟨by decide, by decide⟩,
    (mode_not_recognized_iff goExternals { disabledAlerts with Enabled := true, Mode := "Poll" }
      rfl).2.mpr ⟨by decide, by decide⟩⟩

/-! ## Listen-mode validation -/

/-- C9: an enabled Listen-mode alerts configuration is valid if and only if its
endpoint is non-empty and `SplitHostPort` accepts it, its secret is non-empty,
and its TLS block is absent or has both a certificate file and a key file. -/
theorem listen_valid_iff (X : Externals) (a : AlertConfig)
    (hE : a.Enabled = true) (hM : a.Mode = X.alertModeListen) :
    a.validate X = [] ↔
      a.Endpoint ≠ ""
      ∧ (∃ hostPort, X.SplitHostPort a.Endpoint = .ok hostPort)
      ∧ a.Secret ≠ ""
      ∧ (a.TLS = none ∨ ∃ tls, a.TLS = some tls ∧ tls.CertFile ≠ "" ∧ tls.KeyFile ≠ "") := by
  rw [validate_listen X a hE hM]
  by_cases hEnd : a.Endpoint = ""
  · simp [AlertConfig.validateListenConfig, hEnd]
  · rw [validateListenConfig_eq X a hEnd]
    cases hsplit : X.SplitHostPort a.Endpoint <;> cases htls : a.TLS <;>
      by_cases hS : a.Secret = "" <;> simp [hEnd, hS]

/-- C9 at a valid Listen configuration with a TLS block, and at one whose
endpoint has no port. -/
theorem listen_valid_iff_witness :
    (listenAlerts "0.0.0.0:7706" "s3cret"
        (some { CertFile := "some_cert_file", KeyFile := "some_key_file" })).validate goExternals = []
    ∧ (listenAlerts "7706" "s3cret" none).validate goExternals ≠ [] :=
  ⟨(listen_valid_iff goExternals
      (listenAlerts "0.0.0.0:7706" "s3cret"
        (some { CertFile := "some_cert_file", KeyFile := "some_key_file" })) rfl rfl).mpr
      ⟨by decide, ⟨("0.0.0.0", "7706"), rfl⟩, by decide,
        Or.inr ⟨_, rfl, by decide, by decide⟩⟩,
    fun h =>
      absurd ((listen_valid_iff goExternals (listenAlerts "7706" "s3cret" none) rfl rfl).mp h).2.1
        (by
          rintro ⟨hostPort, hp⟩
          have hfail : goExternals.SplitHostPort (listenAlerts "7706" "s3cret" none).Endpoint
              = .error { Err := "missing port in address", Addr := "7706" } := rfl
          rw [hfail] at hp
          cases hp)⟩

/-- C10: for an enabled Listen-mode alerts configuration with a non-empty
endpoint the four checks are all made. The result holds the wrapped error of
`SplitHostPort` exactly when the endpoint does not parse, `errNoSecret` exactly
when the secret is empty, `errNoCert` exactly when TLS is present with an empty
certificate file, and `errNoKey` exactly when TLS is present with an empty key
file. It holds nothing else, each at most once, and in that order: it is at
most one endpoint error followed by a sublist of
`[errNoSecret, errNoCert, errNoKey]`. -/
theorem listen_checks_accumulate (X : Externals) (a : AlertConfig)
    (hE : a.Enabled = true) (hM : a.Mode = X.alertModeListen) (hEnd : a.Endpoint ≠ "") :
    (∀ err, errSplitEndpoint err ∈ a.validate X ↔ X.SplitHostPort a.Endpoint = .error err)
    ∧ (errNoSecret ∈ a.validate X ↔ a.Secret = "")
    ∧ (errNoCert ∈ a.validate X ↔ ∃ tls, a.TLS = some tls ∧ tls.CertFile = "")
    ∧ (errNoKey ∈ a.validate X ↔ ∃ tls, a.TLS = some tls ∧ tls.KeyFile = "")
    ∧ ∃ endpointErrs others,
        a.validate X = endpointErrs ++ others
        ∧ (endpointErrs = [] ∨ ∃ err, endpointErrs = [errSplitEndpoint err])
        ∧ others.Sublist [errNoSecret, errNoCert, errNoKey] := by
  rw [validate_listen X a hE hM, validateListenConfig_eq X a hEnd]
  refine ⟨?_, ?_, ?_, ?_, ?_⟩
  · intro err
    cases X.SplitHostPort a.Endpoint <;> cases a.TLS <;>
      by_cases hS : a.Secret = "" <;> simp [hS, eq_comm]
  · cases X.SplitHostPort a.Endpoint <;> cases a.TLS <;>
      by_cases hS : a.Secret = "" <;> simp [hS]
  · cases X.SplitHostPort a.Endpoint <;> cases a.TLS <;>
      by_cases hS : a.Secret = "" <;> simp [hS]
  · cases X.SplitHostPort a.Endpoint <;> cases a.TLS <;>
      by_cases hS : a.Secret = "" <;> simp [hS]
  · refine ⟨_, _, List.append_assoc _ _ _, ?_, ?_⟩
    · cases X.SplitHostPort a.Endpoint <;> simp
    · cases a.TLS with
      | none =>
        by_cases hS : a.Secret = "" <;> simp [hS]
      | some tls =>
        by_cases hS : a.Secret = "" <;> by_cases hC : tls.CertFile = "" <;>
          by_cases hK : tls.KeyFile = "" <;> simp [hS, hC, hK]

/-- C10 at a configuration whose endpoint has no port, whose secret is empty
and whose TLS block names neither file: all four errors are reported. -/
theorem listen_checks_accumulate_witness :
    errSplitEndpoint { Err := "missing port in address", Addr := "localhost" } ∈
        (listenAlerts "localhost" "" (some { CertFile := "", KeyFile := "" })).validate
          goExternals
    ∧ errNoSecret ∈
        (listenAlerts "localhost" "" (some { CertFile := "", KeyFile := "" })).validate
          goExternals
    ∧ errNoCert ∈
        (listenAlerts "localhost" "" (some { CertFile := "", KeyFile := "" })).validate
          goExternals
    ∧ errNoKey ∈
        (listenAlerts "localhost" "" (some { CertFile := "", KeyFile := "" })).validate
          goExternals :=
  have h := listen_checks_accumulate goExternals
    (listenAlerts "localhost" "" (some { CertFile := "", KeyFile := "" })) rfl rfl (by decide)
  ⟨(h.1 _).mpr rfl, h.2.1.mpr rfl, h.2.2.1.mpr ⟨_, rfl, rfl⟩, h.2.2.2.1.mpr ⟨_, rfl, rfl⟩⟩

/-! ## The logs surface and the events block -/

/-- C11: an enabled logs configuration is valid if and only if its project list
is non-empty and no project has both lists non-empty. The result contains
`errNoProjects` exactly when the project list is empty, it contains one
`errClusterConfig` for each project that has both lists non-empty, and it
contains nothing else. -/
theorem logs_validate_exact (l : LogConfig) (hE : l.Enabled = true) :
    (l.validate = [] ↔
      l.Projects ≠ []
      ∧ ∀ p ∈ l.Projects, ¬ (p.IncludeClusters ≠ [] ∧ p.ExcludeClusters ≠ []))
    ∧ (errNoProjects ∈ l.validate ↔ l.Projects = [])
    ∧ l.validate.count errClusterConfig =
        (l.Projects.filter
          (fun p => decide (p.IncludeClusters ≠ [] ∧ p.ExcludeClusters ≠ []))).length
    ∧ ∀ e ∈ l.validate, e = errNoProjects ∨ e = errClusterConfig := by
  rw [LogConfig.validate_eq l hE, ← List.countP_eq_length_filter]
  refine ⟨?_, ?_, ?_, ?_⟩
  · by_cases hp : l.Projects = []
    · simp [hp]
    · simp only [hp, if_false, List.nil_append, ne_eq, not_false_eq_true, true_and]
      rw [List.replicate_eq_nil_iff, List.countP_eq_zero]
      simp
  · by_cases hp : l.Projects = [] <;> simp [hp, List.mem_replicate]
  · by_cases hp : l.Projects = [] <;> simp [hp, List.count_replicate_self]
  · intro e he
    by_cases hp : l.Projects = [] <;> simp [hp, List.mem_replicate] at he <;> simp [he]

/-- C11 at an enabled logs configuration with three projects, two of which
have both lists: two `errClusterConfig` and no `errNoProjects`. -/
theorem logs_validate_exact_witness :
    (LogConfig.validate
        { Enabled := true
          Projects := [projectBothLists, projectIncludeOnly, projectBothLists] }).count
        errClusterConfig = 2
    ∧ errNoProjects ∉ LogConfig.validate
        { Enabled := true
          Projects := [projectBothLists, projectIncludeOnly, projectBothLists] }
    ∧ errNoProjects ∈ LogConfig.validate { Enabled := true, Projects := [] } :=
  ⟨(logs_validate_exact
      { Enabled := true, Projects := [projectBothLists, projectIncludeOnly, projectBothLists] }
      rfl).2.2.1.trans (by decide),
    fun h => absurd ((logs_validate_exact
      { Enabled := true, Projects := [projectBothLists, projectIncludeOnly, projectBothLists] }
      rfl).2.1.mp h) (by decide),
    (logs_validate_exact { Enabled := true, Projects := [] } rfl).2.1.mpr rfl⟩

/-- The alerts validator never reports `errNoEvents`. -/
theorem errNoEvents_not_mem_alerts (X : Externals) (a : AlertConfig) :
    errNoEvents ∉ a.validate X := by
  by_cases hE : a.Enabled = true
  · by_cases hP : a.Mode = X.alertModePoll
    · rw [validate_poll X a hE hP, validatePollConfig_eq]
      split_ifs <;> simp [List.mem_replicate]
    · by_cases hL : a.Mode = X.alertModeListen
      · rw [validate_listen X a hE hL]
        by_cases hEnd : a.Endpoint = ""
        · simp [AlertConfig.validateListenConfig, hEnd]
        · rw [validateListenConfig_eq X a hEnd]
          cases X.SplitHostPort a.Endpoint <;> cases a.TLS <;> simp
      · simp [AlertConfig.validate, hE, hP, hL]
  · simp [AlertConfig.validate, hE]

/-- The logs validator never reports `errNoEvents`. -/
theorem errNoEvents_not_mem_logs (l : LogConfig) : errNoEvents ∉ l.validate := by
  by_cases hE : l.Enabled = true
  · rw [LogConfig.validate_eq l hE]
    by_cases hp : l.Projects = [] <;> simp [hp, List.mem_replicate]
  · simp [LogConfig.validate, hE]

/-- C12: `EventsConfig.validate` returns `errNoEvents` if and only if both the
project list and the organization list are empty, and no error otherwise.
`Config.Validate` applies the rule only to a present events block: without one
it never reports `errNoEvents`, and with one it reports `errNoEvents` exactly
when both lists of the block are empty. -/
theorem events_rule (X : Externals) (e : EventsConfig) (c : Config) :
    (e.validate = [errNoEvents] ↔ e.Projects = [] ∧ e.Organizations = [])
    ∧ (¬ (e.Projects = [] ∧ e.Organizations = []) → e.validate = [])
    ∧ (c.Events = none → errNoEvents ∉ c.Validate X)
    ∧ (c.Events = some e →
        (errNoEvents ∈ c.Validate X ↔ e.Projects = [] ∧ e.Organizations = [])) := by
  have hv : e.validate =
      if e.Projects = [] ∧ e.Organizations = [] then [errNoEvents] else [] := by
    simp [EventsConfig.validate, List.length_eq_zero]
  have ha := errNoEvents_not_mem_alerts X c.Alerts
  have hl := errNoEvents_not_mem_logs c.Logs
  refine ⟨?_, ?_, ?_, ?_⟩
  · rw [hv]
    by_cases h : e.Projects = [] ∧ e.Organizations = [] <;> simp [h]
  · intro h
    rw [hv, if_neg h]
  · intro hnone
    rw [Validate_eq, hnone]
    simp [ha, hl]
  · intro hsome
    rw [Validate_eq, hsome]
    simp only [List.mem_append, ha, hl, false_or, hv]
    by_cases h : e.Projects = [] ∧ e.Organizations = [] <;> simp [h]

/-- C12 at an empty events block inside a configuration, and at a
configuration without events block. -/
theorem events_rule_witness :
    errNoEvents ∈ (configOf disabledAlerts { Enabled := false, Projects := [] }
        (some (eventsOf [] []))).Validate goExternals
    ∧ errNoEvents ∉ (configOf disabledAlerts { Enabled := false, Projects := [] }
        none).Validate goExternals :=
  ⟨((events_rule goExternals (eventsOf [] [])
      (configOf disabledAlerts { Enabled := false, Projects := [] } (some (eventsOf [] [])))).2.2.2
      rfl).mpr ⟨rfl, rfl⟩,
    (events_rule goExternals (eventsOf [] [])
      (configOf disabledAlerts { Enabled := false, Projects := [] } none)).2.2.1 rfl⟩

/-! ## What an accepted Poll configuration satisfies -/

/-- C13, as stated, fails: `validate` accepts an enabled Poll-mode configuration
whose poll interval and maximum number of pages are both negative. -/
theorem accepted_poll_negative_interval :
    AlertConfig.Enabled
        { pollAlerts [projectIncludeOnly] 100 with PollInterval := -5, MaxPages := -1 } = true
    ∧ AlertConfig.Mode
        { pollAlerts [projectIncludeOnly] 100 with PollInterval := -5, MaxPages := -1 }
        = goExternals.alertModePoll
    ∧ AlertConfig.validate goExternals
        { pollAlerts [projectIncludeOnly] 100 with PollInterval := -5, MaxPages := -1 } = []
    ∧ ¬ (0 < AlertConfig.PollInterval
        { pollAlerts [projectIncludeOnly] 100 with PollInterval := -5, MaxPages := -1 })
    ∧ ¬ (0 ≤ AlertConfig.MaxPages
        { pollAlerts [projectIncludeOnly] 100 with PollInterval := -5, MaxPages := -1 }) := by
  decide

/-- C13, amended: an enabled Poll-mode alerts configuration that `validate`
accepts satisfies `1 ≤ PageSize ≤ 500`; `validate` puts no condition on
`PollInterval` and `MaxPages`, so it accepts the configuration with any other
values of them as well. -/
theorem accepted_poll_page_size (X : Externals) (a : AlertConfig)
    (hE : a.Enabled = true) (hM : a.Mode = X.alertModePoll) (hv : a.validate X = []) :
    1 ≤ a.PageSize ∧ a.PageSize ≤ 500
    ∧ ∀ interval maxPages : Int,
        AlertConfig.validate X { a with PollInterval := interval, MaxPages := maxPages } = [] := by
  have hsame : ∀ interval maxPages : Int,
      AlertConfig.validate X { a with PollInterval := interval, MaxPages := maxPages }
        = a.validate X := by
    intro interval maxPages
    rw [validate_poll X { a with PollInterval := interval, MaxPages := maxPages } hE hM,
      validate_poll X a hE hM]
    rfl
  rw [validate_poll X a hE hM, validatePollConfig_eq] at hv
  have hsize : 1 ≤ a.PageSize ∧ a.PageSize ≤ 500 := by
    by_cases hp : a.Projects = []
    · simp [hp] at hv
    · by_cases hbad : a.PageSize ≤ 0 ∨ 500 < a.PageSize
      · simp [hp, hbad] at hv
      · omega
  refine ⟨hsize.1, hsize.2, fun interval maxPages => ?_⟩
  rw [hsame, validate_poll X a hE hM, validatePollConfig_eq]
  exact hv

/-- The amended C13 at an accepted configuration with page size 100. -/
theorem accepted_poll_page_size_witness :
    (1 : Int) ≤ (pollAlerts [projectIncludeOnly] 100).PageSize
    ∧ (pollAlerts [projectIncludeOnly] 100).PageSize ≤ 500
    ∧ ∀ interval maxPages : Int,
        AlertConfig.validate goExternals
          { pollAlerts [projectIncludeOnly] 100 with
            PollInterval := interval, MaxPages := maxPages } = [] :=
  accepted_poll_page_size goExternals (pollAlerts [projectIncludeOnly] 100) rfl rfl (by decide)

/-! ## The composite validator -/

/-- C14: the result of `Config.Validate` is the errors of `Alerts.validate`,
then those of `Logs.validate`, then those of `Events.validate` when the events
block is present. So it is no error exactly when each of these validators
returns no error, and an error is in it exactly when it is in the result of one
of them: no surface hides the errors of another. -/
theorem Validate_is_composite (X : Externals) (c : Config) :
    c.Validate X =
        c.Alerts.validate X ++ c.Logs.validate
          ++ (match c.Events with
            | some events => events.validate
            | none => [])
    ∧ (c.Validate X = [] ↔
        c.Alerts.validate X = [] ∧ c.Logs.validate = []
        ∧ ∀ events, c.Events = some events → events.validate = [])
    ∧ ∀ err, err ∈ c.Validate X ↔
        err ∈ c.Alerts.validate X ∨ err ∈ c.Logs.validate
        ∨ ∃ events, c.Events = some events ∧ err ∈ events.validate := by
  refine ⟨Validate_eq X c, ?_, ?_⟩
  · rw [Validate_eq]
    cases c.Events <;> simp [and_assoc]
  · intro err
    rw [Validate_eq]
    cases c.Events <;> simp [or_assoc]

/-! ## The exact result of Poll-mode validation -/

/-- C15: for an enabled Poll-mode alerts configuration `validate` returns
exactly `errNoProjects` when the project list is empty; otherwise exactly
`errPageSizeIncorrect` when `PageSize ≤ 0` or `PageSize > 500`; otherwise one
`errClusterConfig` for each project that has both lists non-empty, which is no
error when there is no such project. -/
theorem poll_validate_exact (X : Externals) (a : AlertConfig)
    (hE : a.Enabled = true) (hM : a.Mode = X.alertModePoll) :
    (a.Projects = [] → a.validate X = [errNoProjects])
    ∧ (a.Projects ≠ [] → a.PageSize ≤ 0 ∨ 500 < a.PageSize →
        a.validate X = [errPageSizeIncorrect])
    ∧ (a.Projects ≠ [] → 1 ≤ a.PageSize → a.PageSize ≤ 500 →
        a.validate X =
          (a.Projects.filter
            (fun p => decide (p.IncludeClusters ≠ [] ∧ p.ExcludeClusters ≠ []))).map
            (fun _ => errClusterConfig))
    ∧ (a.Projects ≠ [] → 1 ≤ a.PageSize → a.PageSize ≤ 500 →
        (∀ p ∈ a.Projects, ¬ (p.IncludeClusters ≠ [] ∧ p.ExcludeClusters ≠ [])) →
        a.validate X = []) := by
  rw [validate_poll X a hE hM, validatePollConfig_eq]
  refine ⟨?_, ?_, ?_, ?_⟩
  · intro hp
    rw [if_pos hp]
  · intro hp hbad
    rw [if_neg hp, if_pos hbad]
  · intro hp h1 h500
    have hgood : ¬ (a.PageSize ≤ 0 ∨ 500 < a.PageSize) := by omega
    rw [if_neg hp, if_neg hgood, List.countP_eq_length_filter, List.map_const']
  · intro hp h1 h500 hC
    have hgood : ¬ (a.PageSize ≤ 0 ∨ 500 < a.PageSize) := by omega
    have hcount : a.Projects.countP
        (fun p => decide (p.IncludeClusters ≠ [] ∧ p.ExcludeClusters ≠ [])) = 0 := by
      rw [List.countP_eq_zero]
      intro p hp
      simpa using hC p hp
    rw [if_neg hp, if_neg hgood, hcount]
    rfl

/-- C15 at three configurations: no project and a bad page size, a project with
both lists and a bad page size, and two projects with both lists among three
with a good page size. -/
theorem poll_validate_exact_witness :
    (pollAlerts [] 501).validate goExternals = [errNoProjects]
    ∧ (pollAlerts [projectBothLists] 501).validate goExternals = [errPageSizeIncorrect]
    ∧ (pollAlerts [projectBothLists, projectIncludeOnly, projectBothLists] 500).validate
        goExternals = [errClusterConfig, errClusterConfig] :=
  ⟨(poll_validate_exact goExternals (pollAlerts [] 501) rfl rfl).1 rfl,
    (poll_validate_exact goExternals (pollAlerts [projectBothLists] 501) rfl rfl).2.1
      (by decide) (Or.inr (by decide)),
    ((poll_validate_exact goExternals
      (pollAlerts [projectBothLists, projectIncludeOnly, projectBothLists] 500) rfl rfl).2.2.1
      (by decide) (by decide) (by decide)).trans (by decide)⟩

/-! ## Which fields the alerts validator reads -/

/-- C16: two enabled Poll-mode alerts configurations with the same projects and
page size get the same result, whatever their endpoint, secret, TLS block, poll
interval and maximum number of pages are; two enabled Listen-mode alerts
configurations with the same endpoint, secret and TLS block get the same
result, whatever their projects, page size, poll interval and maximum number
of pages are. -/
theorem validate_reads_active_mode_only (X : Externals) (a b : AlertConfig)
    (ha : a.Enabled = true) (hb : b.Enabled = true) :
    (a.Mode = X.alertModePoll → b.Mode = X.alertModePoll →
      a.Projects = b.Projects → a.PageSize = b.PageSize →
      a.validate X = b.validate X)
    ∧ (a.Mode = X.alertModeListen → b.Mode = X.alertModeListen →
      a.Endpoint = b.Endpoint → a.Secret = b.Secret → a.TLS = b.TLS →
      a.validate X = b.validate X) := by
  constructor
  · intro hMa hMb hP hS
    rw [validate_poll X a ha hMa, validate_poll X b hb hMb]
    unfold AlertConfig.validatePollConfig
    rw [hP, hS]
  · intro hMa hMb hEnd hSec hTLS
    rw [validate_listen X a ha hMa, validate_listen X b hb hMb]
    unfold AlertConfig.validateListenConfig
    rw [hEnd, hSec, hTLS]

/-- C16 at a Poll-mode pair that differs in every Listen field, in the poll
interval and in the maximum number of pages, and at a Listen-mode pair that
differs in every Poll field. -/
theorem validate_reads_active_mode_only_witness :
    (pollAlerts [projectBothLists] 100).validate goExternals =
        AlertConfig.validate goExternals
          { pollAlerts [projectBothLists] 100 with
            Endpoint := "localhost", Secret := "s3cret"
            TLS := some { CertFile := "", KeyFile := "" }
            PollInterval := -5, MaxPages := -1 }
    ∧ (listenAlerts "localhost" "" none).validate goExternals =
        AlertConfig.validate goExternals
          { listenAlerts "localhost" "" none with
            Projects := [projectBothLists], PageSize := 501
            PollInterval := -5, MaxPages := -1 } :=
  ⟨(validate_reads_active_mode_only goExternals (pollAlerts [projectBothLists] 100)
      { pollAlerts [projectBothLists] 100 with
        Endpoint := "localhost", Secret := "s3cret"
        TLS := some { CertFile := "", KeyFile := "" }
        PollInterval := -5, MaxPages := -1 } rfl rfl).1 rfl rfl rfl rfl,
    (validate_reads_active_mode_only goExternals (listenAlerts "localhost" "" none)
      { listenAlerts "localhost" "" none with
        Projects := [projectBothLists], PageSize := 501
        PollInterval := -5, MaxPages := -1 } rfl rfl).2 rfl rfl rfl rfl rfl⟩

/-! ## What `populateIncludesAndExcludes` changes -/

/-- C17: `populateIncludesAndExcludes` leaves `Name`, `IncludeClusters`,
`ExcludeClusters` and `EnableAuditLogs` as they are. The two lookup sets are
rebuilt from the two lists alone: whatever the sets held before, the result is
the same, so cached contents are discarded, and applying the function a second
time changes nothing. -/
theorem populate_frame (pc : ProjectConfig) :
    pc.populateIncludesAndExcludes.Name = pc.Name
    ∧ pc.populateIncludesAndExcludes.IncludeClusters = pc.IncludeClusters
    ∧ pc.populateIncludesAndExcludes.ExcludeClusters = pc.ExcludeClusters
    ∧ pc.populateIncludesAndExcludes.EnableAuditLogs = pc.EnableAuditLogs
    ∧ (∀ includes excludes : Option (Finset String),
        ProjectConfig.populateIncludesAndExcludes
          { pc with includesByClusterName := includes, excludesByClusterName := excludes }
        = pc.populateIncludesAndExcludes)
    ∧ (∀ other : ProjectConfig,
        other.IncludeClusters = pc.IncludeClusters →
        other.ExcludeClusters = pc.ExcludeClusters →
        other.populateIncludesAndExcludes.includesByClusterName
            = pc.populateIncludesAndExcludes.includesByClusterName
          ∧ other.populateIncludesAndExcludes.excludesByClusterName
            = pc.populateIncludesAndExcludes.excludesByClusterName)
    ∧ pc.populateIncludesAndExcludes.populateIncludesAndExcludes
        = pc.populateIncludesAndExcludes := by
  refine ⟨rfl, rfl, rfl, rfl, fun _ _ => rfl, ?_, rfl⟩
  intro other hI hE
  simp [ProjectConfig.populateIncludesAndExcludes, hI, hE]

end mongodbatlasreceiver
